import Mathlib

/-!
Shallow embedding of the Giga Dogi collection contract (src/src/lib.rs).

Machine integers (`u128`) are modelled as `Nat` with explicit `% 2^128`
where overflow or truncation matters.  Persistent key-value storage is a
function from byte-string keys to byte-string values (a missing key maps
to the empty byte string, matching the host store's default).  The host
execution context (monotonic sequence counter, fuel, the one-time
init marker) is explicit state, and the cross-contract call is an
oracle parameter, so theorems quantify over every possible behaviour of
the template contract.
-/

namespace GigaDogi

/-- Little-endian encoding of a natural number into `w` bytes
(`u128::to_le_bytes` is `natToLE 16`).  Truncates above `2^(8*w)`,
exactly as a fixed-width integer would. -/
def natToLE : Nat → Nat → List Nat
  | 0, _ => []
  | w + 1, n => n % 256 :: natToLE w (n / 256)

/-- Little-endian decoding of a byte string into a natural number
(`u128::from_le_bytes` on 16 bytes). An empty byte string decodes to 0,
matching the store default for an unset key. -/
def leToNat : List Nat → Nat
  | [] => 0
  | b :: bs => b % 256 + 256 * leToNat bs

/-- Identity of a contract or instance on the ledger
(`alkanes_support::id::AlkaneId`): `block` is the realm, `tx` the
sequence number; both are `u128` in the source. -/
structure AlkaneId where
  block : Nat
  tx : Nat
deriving DecidableEq, Repr

/-- One asset transfer (`alkanes_support::parcel::AlkaneTransfer`):
`value` is a `u128` amount of the asset identified by `id`. -/
structure AlkaneTransfer where
  id : AlkaneId
  value : Nat
deriving DecidableEq, Repr

/-- Response of a contract call (`alkanes_support::response::CallResponse`):
output asset transfers plus a raw data payload (bytes). -/
structure CallResponse where
  alkanes : List AlkaneTransfer
  data : List Nat
deriving DecidableEq, Repr

/-- Model of `CallResponse::forward(&incoming)`: start a response that forwards the
caller's incoming transfers unchanged, with an empty data payload. -/
def CallResponse.forward (incoming : List AlkaneTransfer) : CallResponse :=
  { alkanes := incoming, data := [] }

/-- The contract's key-value store: byte-string keys to byte-string
values; unset keys read as the empty byte string. -/
def Store : Type := List Nat → List Nat

/-- Point update of the store (`StoragePointer::set`). -/
def Store.write (s : Store) (k v : List Nat) : Store :=
  fun k' => if k' = k then v else s k'

/-- The store of a freshly deployed contract: nothing set. -/
def emptyStore : Store := fun _ => []

/-- UTF-8 bytes of a string (what `String::into_bytes` yields in the
source when a handler puts a string into `response.data`).  Every string
literal in this contract is ASCII, where the UTF-8 bytes are exactly the
code points, so the encoding is the code-point list. -/
def strBytes (s : String) : List Nat :=
  s.data.map Char.toNat

/-- Execution context visible to a handler (`self.context()?`): the
caller's incoming asset transfers and the contract's own identity. -/
structure Context where
  incoming_alkanes : List AlkaneTransfer
  myself : AlkaneId
deriving DecidableEq, Repr

/-- Host-side mutable state of one invocation: the monotonic sequence
counter (`self.sequence()`), the remaining fuel (`self.fuel()`), the
contract's persistent store, and the one-time init marker used by
`observe_initialization` (the marker itself lives in the alkanes
runtime, outside this repository; it is modelled from the spec as a
boolean flag). -/
structure Host where
  sequence : Nat
  fuel : Nat
  store : Store
  initDone : Bool

/-- Outbound call message (`alkanes_support::cellpack::Cellpack`). -/
structure Cellpack where
  target : AlkaneId
  inputs : List Nat
deriving DecidableEq, Repr

/-- Behaviour of the cross-contract call adapter (`self.call`): given the
cellpack, the outgoing asset parcel and the fuel budget, plus the current
sequence counter, it either fails or returns a response together with the
new sequence counter and remaining fuel.  The callee cannot touch this
contract's store (storage scopes are per-contract), which the type makes
structural. -/
def ExtCall : Type :=
  Cellpack → List AlkaneTransfer → Nat → Nat → Except String (CallResponse × Nat × Nat)

/-- Value of `u128::MAX`. -/
def U128_MAX : Nat := 2 ^ 128 - 1

/-- Constant `DOGI_ORBITAL_TEMPLATE_ID` from the source. -/
def DOGI_ORBITAL_TEMPLATE_ID : Nat := 0x378

/-- Byte-string key of `StoragePointer::from_keyword("/instances")`:
the ASCII bytes of "/instances". -/
def instancesKey : List Nat :=
  (strBytes "/instances")

/-- Key of the instance record stored at 1-based storage index `i`:
`instances_pointer().select(&new_count.to_le_bytes().to_vec())`, i.e. the
"/instances" key followed by the 16-byte little-endian index. -/
def instanceKey (i : Nat) : List Nat :=
  instancesKey ++ natToLE 16 i

/-- Model of `instances_count`: read the persisted count at "/instances";
`get_value::<u128>()` decodes little-endian and defaults to 0 when
unset.  The `% 2^128` records that the result is a `u128`. -/
def instances_count (s : Store) : Nat :=
  leToNat (s instancesKey) % 2 ^ 128

/-- Model of `set_instances_count`: store the count as 16 little-endian bytes. -/
def set_instances_count (s : Store) (count : Nat) : Store :=
  s.write instancesKey (natToLE 16 count)

/-- The 32-byte encoding of an identity: 16 bytes little-endian `block`
(realm) followed by 16 bytes little-endian `tx` (sequence). -/
def encodeId (id : AlkaneId) : List Nat :=
  natToLE 16 id.block ++ natToLE 16 id.tx

/-- Model of `add_instance`: checked-increment the count (`checked_add(1)` fails
exactly at `u128::MAX`), store the identity's 32-byte encoding at the
1-based key equal to the new count, persist the new count, and return
it. -/
def add_instance (s : Store) (instance_id : AlkaneId) : Except String (Nat × Store) :=
  let count := instances_count s
  if count = U128_MAX then
    .error "instances count overflow"
  else
    let new_count := count + 1
    let s1 := s.write (instanceKey new_count) (encodeId instance_id)
    let s2 := set_instances_count s1 new_count
    .ok (new_count, s2)

/-- Model of `lookup_instance`: map the 0-based public `index` to the 1-based
storage key `index + 1` (u128 addition), read the record, fail unless it
is exactly 32 bytes, and decode the two 16-byte little-endian halves. -/
def lookup_instance (s : Store) (index : Nat) : Except String AlkaneId :=
  let storage_index := (index + 1) % 2 ^ 128
  let bytes := s (instanceKey storage_index)
  if bytes.length ≠ 32 then
    .error "Invalid instance data length"
  else
    .ok { block := leToNat (bytes.take 16), tx := leToNat (bytes.drop 16) }

/-- Model of `only_owner`: pure validation of the incoming transfers — exactly one
transfer, whose identity is the contract itself and whose amount is at
least 1. -/
def only_owner (ctx : Context) : Except String Unit :=
  match ctx.incoming_alkanes with
  | [transfer] =>
    if transfer.id ≠ ctx.myself then
      .error "supplied alkane is not collection token"
    else if transfer.value < 1 then
      .error "less than 1 unit of collection token supplied to authenticate"
    else
      .ok ()
  | _ => .error "did not authenticate with only the collection token"

/-- Model of `max_mints`: the fixed maximum supply of 5. -/
def max_mints : Nat := 5

/-- The cellpack `create_mint_transfer` sends to the template contract:
target `{block 6, tx 0x378}`, inputs `[0, index]`. -/
def mintCellpack (index : Nat) : Cellpack :=
  { target := { block := 6, tx := DOGI_ORBITAL_TEMPLATE_ID }, inputs := [0, index] }

/-- Model of `create_mint_transfer`: refuse when the count has reached
`max_mints`; otherwise read the sequence counter, make the blocking call
to the template contract with an empty asset parcel and the current
fuel, record `{block 2, tx sequence}` via `add_instance`, and return the
first output transfer of the response (failing when there is none). -/
def create_mint_transfer (extCall : ExtCall) (h : Host) :
    Except String (AlkaneTransfer × Host) :=
  let index := instances_count h.store
  if max_mints ≤ index then
    .error "Giga Dogi collection has fully minted out"
  else
    let sequence := h.sequence
    match extCall (mintCellpack index) [] h.fuel h.sequence with
    | .error e => .error e
    | .ok (response, seq', fuel') =>
      let orbital_id : AlkaneId := { block := 2, tx := sequence }
      match add_instance h.store orbital_id with
      | .error e => .error e
      | .ok (_, s') =>
        match response.alkanes with
        | [] => .error "orbital token not returned with factory"
        | t :: _ =>
          .ok (t, { h with sequence := seq', fuel := fuel', store := s' })

/-- The handler for opcode 0.  `observe_initialization` is runtime code
outside this repository; modelled from the spec: it fails when the
one-time marker is already set and otherwise sets it.  On success the
handler forwards the incoming transfers and appends a 10-unit
self-transfer of the collection's own token. -/
def initOp (ctx : Context) (h : Host) : Except String (CallResponse × Host) :=
  if h.initDone then
    .error "already initialized"
  else
    let h' := { h with initDone := true }
    let response := CallResponse.forward ctx.incoming_alkanes
    .ok ({ response with
            alkanes := response.alkanes ++ [{ id := ctx.myself, value := 10 }] }, h')

/-- Model of `mint_orbital` (opcode 77): forward the incoming transfers, then
append one freshly minted orbital transfer. -/
def mint_orbital (extCall : ExtCall) (ctx : Context) (h : Host) :
    Except String (CallResponse × Host) :=
  let response := CallResponse.forward ctx.incoming_alkanes
  match create_mint_transfer extCall h with
  | .error e => .error e
  | .ok (t, h') =>
    .ok ({ response with alkanes := response.alkanes ++ [t] }, h')

/-- The `for _ in 0..count` loop body of `auth_mint_orbital`: mint
`count` times sequentially, collecting the transfers in order. -/
def mintLoop (extCall : ExtCall) (count : Nat) (h : Host) :
    Except String (List AlkaneTransfer × Host) :=
  match count with
  | 0 => .ok ([], h)
  | n + 1 =>
    match create_mint_transfer extCall h with
    | .error e => .error e
    | .ok (t, h') =>
      match mintLoop extCall n h' with
      | .error e => .error e
      | .ok (ts, h'') => .ok (t :: ts, h'')

/-- Model of `auth_mint_orbital` (opcode 69): forward the incoming transfers,
require `only_owner`, then mint `count` orbitals and append them all. -/
def auth_mint_orbital (extCall : ExtCall) (ctx : Context) (count : Nat) (h : Host) :
    Except String (CallResponse × Host) :=
  let response := CallResponse.forward ctx.incoming_alkanes
  match only_owner ctx with
  | .error e => .error e
  | .ok _ =>
    match mintLoop extCall count h with
    | .error e => .error e
    | .ok (minted, h') =>
      .ok ({ response with alkanes := response.alkanes ++ minted }, h')

/-- Fixed collection name returned by the `Token` impl. -/
def collectionName : String := "Giga Dogi"

/-- Fixed collection symbol returned by the `Token` impl. -/
def collectionSymbol : String := "giga-dogi"

/-- Model of `get_name` (opcode 99): forward the incoming transfers and set
the data payload to the name's bytes. -/
def get_name (ctx : Context) : Except String CallResponse :=
  .ok { CallResponse.forward ctx.incoming_alkanes with data := strBytes collectionName }

/-- Model of `get_symbol` (opcode 100). -/
def get_symbol (ctx : Context) : Except String CallResponse :=
  .ok { CallResponse.forward ctx.incoming_alkanes with data := strBytes collectionSymbol }

/-- Model of `get_total_supply` (opcode 101): the data payload is always
`1u128.to_le_bytes()`, independent of the store. -/
def get_total_supply (ctx : Context) : Except String CallResponse :=
  .ok { CallResponse.forward ctx.incoming_alkanes with data := natToLE 16 1 }

/-- Model of `get_orbital_count` (opcode 102): the data payload is
`instances_count().to_le_bytes()`. -/
def get_orbital_count (ctx : Context) (s : Store) : Except String CallResponse :=
  .ok { CallResponse.forward ctx.incoming_alkanes with
          data := natToLE 16 (instances_count s) }

/-- Trait JSON for Dogi 0 (raw string from the source, byte for byte). -/
def dogiTraits0 : String :=
  "\x7b\"attributes\": [\n        \x7b\"trait_type\": \"Background\", \"value\": \"Cosmic Purple\"\x7d,\n        \x7b\"trait_type\": \"Body\", \"value\": \"Golden Shiba\"\x7d,\n        \x7b\"trait_type\": \"Eyes\", \"value\": \"Laser Blue\"\x7d,\n        \x7b\"trait_type\": \"Accessory\", \"value\": \"Diamond Chain\"\x7d,\n        \x7b\"trait_type\": \"Rarity\", \"value\": \"Legendary\"\x7d\n      ]\x7d"

/-- Trait JSON for Dogi 1. -/
def dogiTraits1 : String :=
  "\x7b\"attributes\": [\n        \x7b\"trait_type\": \"Background\", \"value\": \"Neon Green\"\x7d,\n        \x7b\"trait_type\": \"Body\", \"value\": \"Silver Shiba\"\x7d,\n        \x7b\"trait_type\": \"Eyes\", \"value\": \"Fire Red\"\x7d,\n        \x7b\"trait_type\": \"Accessory\", \"value\": \"Bitcoin Crown\"\x7d,\n        \x7b\"trait_type\": \"Rarity\", \"value\": \"Epic\"\x7d\n      ]\x7d"

/-- Trait JSON for Dogi 2. -/
def dogiTraits2 : String :=
  "\x7b\"attributes\": [\n        \x7b\"trait_type\": \"Background\", \"value\": \"Electric Blue\"\x7d,\n        \x7b\"trait_type\": \"Body\", \"value\": \"Rainbow Shiba\"\x7d,\n        \x7b\"trait_type\": \"Eyes\", \"value\": \"Galaxy Purple\"\x7d,\n        \x7b\"trait_type\": \"Accessory\", \"value\": \"Rocket Pack\"\x7d,\n        \x7b\"trait_type\": \"Rarity\", \"value\": \"Rare\"\x7d\n      ]\x7d"

/-- Trait JSON for Dogi 3. -/
def dogiTraits3 : String :=
  "\x7b\"attributes\": [\n        \x7b\"trait_type\": \"Background\", \"value\": \"Sunset Orange\"\x7d,\n        \x7b\"trait_type\": \"Body\", \"value\": \"Cyber Shiba\"\x7d,\n        \x7b\"trait_type\": \"Eyes\", \"value\": \"Neon Green\"\x7d,\n        \x7b\"trait_type\": \"Accessory\", \"value\": \"Holographic Collar\"\x7d,\n        \x7b\"trait_type\": \"Rarity\", \"value\": \"Uncommon\"\x7d\n      ]\x7d"

/-- Trait JSON for Dogi 4. -/
def dogiTraits4 : String :=
  "\x7b\"attributes\": [\n        \x7b\"trait_type\": \"Background\", \"value\": \"Matrix Black\"\x7d,\n        \x7b\"trait_type\": \"Body\", \"value\": \"Platinum Shiba\"\x7d,\n        \x7b\"trait_type\": \"Eyes\", \"value\": \"Diamond White\"\x7d,\n        \x7b\"trait_type\": \"Accessory\", \"value\": \"Infinity Gauntlet\"\x7d,\n        \x7b\"trait_type\": \"Rarity\", \"value\": \"Mythic\"\x7d\n      ]\x7d"

/-- Model of `generate_dogi_attributes`: bounds-check `index < 5`, then
return the static trait JSON for that index.  The catch-all error of the
source's `match` is kept even though `index < 5` makes it unreachable. -/
def generate_dogi_attributes (index : Nat) : Except String String :=
  if 5 ≤ index then
    .error "Index out of bounds for Giga Dogi collection"
  else
    match index with
    | 0 => .ok dogiTraits0
    | 1 => .ok dogiTraits1
    | 2 => .ok dogiTraits2
    | 3 => .ok dogiTraits3
    | 4 => .ok dogiTraits4
    | _ => .error "Invalid Dogi index"

/-- Cloudinary URL table from the source, in array order. -/
def cloudinary_urls : List String :=
  [ "https://res.cloudinary.com/dpwvlwwf7/image/upload/t_Thumbnail/v1749684070/dogi5_iig8fx.png"
  , "https://res.cloudinary.com/dpwvlwwf7/image/upload/t_Thumbnail/v1749684069/dogi3_bfezed.png"
  , "https://res.cloudinary.com/dpwvlwwf7/image/upload/t_Thumbnail/v1749684069/dogi4_jistot.png"
  , "https://res.cloudinary.com/dpwvlwwf7/image/upload/t_Thumbnail/v1749684068/dogi2_gowfmy.png"
  , "https://res.cloudinary.com/dpwvlwwf7/image/upload/t_Thumbnail/v1749684067/dogi1_k1xpl4.png" ]

/-- Model of `get_cloudinary_url`: bounds-check `index < 5`, then index
into the URL array (the Rust indexing cannot be out of bounds after the
check, so the `getD` default is unreachable). -/
def get_cloudinary_url (index : Nat) : Except String String :=
  if 5 ≤ index then
    .error "Index out of bounds for Giga Dogi collection"
  else
    .ok (cloudinary_urls.getD index "")

/-- Model of `get_attributes` (opcode 999): forward the incoming transfers and
set the data payload to the trait JSON's bytes, propagating the bounds
error. -/
def get_attributes (ctx : Context) (index : Nat) : Except String CallResponse :=
  match generate_dogi_attributes index with
  | .error e => .error e
  | .ok attributes =>
    .ok { CallResponse.forward ctx.incoming_alkanes with data := strBytes attributes }

/-- Model of `get_data` (opcode 1000): forward the incoming transfers and set
the data payload to the URL's bytes, propagating the bounds error. -/
def get_data (ctx : Context) (index : Nat) : Except String CallResponse :=
  match get_cloudinary_url index with
  | .error e => .error e
  | .ok cloudinary_url =>
    .ok { CallResponse.forward ctx.incoming_alkanes with data := strBytes cloudinary_url }

/-- Model of `get_instance_alkane_id` (opcode 1001): look up the instance and
return its raw 32-byte encoding, propagating any lookup error. -/
def get_instance_alkane_id (ctx : Context) (s : Store) (index : Nat) :
    Except String CallResponse :=
  match lookup_instance s index with
  | .error e => .error e
  | .ok instance_id =>
    .ok { CallResponse.forward ctx.incoming_alkanes with data := encodeId instance_id }

/-- Model of `get_instance_identifier` (opcode 1002): look up the instance and
return the string "block:tx" (u128 `Display` is decimal, as `toString`
on `Nat`), propagating any lookup error. -/
def get_instance_identifier (ctx : Context) (s : Store) (index : Nat) :
    Except String CallResponse :=
  match lookup_instance s index with
  | .error e => .error e
  | .ok instance_id =>
    .ok { CallResponse.forward ctx.incoming_alkanes with
            data := strBytes (toString instance_id.block ++ ":" ++ toString instance_id.tx) }

/-- Invariant of the persistent store maintained by the contract: the
count never exceeds the maximum supply, and every 1-based instance slot
above the count (and the unused slot 0) is unwritten. -/
def StoreInv (s : Store) : Prop :=
  instances_count s ≤ max_mints ∧
  ∀ j, j < 2 ^ 128 → (j = 0 ∨ instances_count s < j) → s (instanceKey j) = []

/-- Reachable persistent states: what the store can be after any finite
sequence of contract invocations starting from deployment.  Only the two
minting handlers write the store; the init handler and every query
leave it unchanged. -/
inductive Reachable : Store → Prop where
  | empty : Reachable emptyStore
  | mint (extCall : ExtCall) (ctx : Context) (h : Host) (r : CallResponse) (h' : Host) :
      Reachable h.store → mint_orbital extCall ctx h = .ok (r, h') →
      Reachable h'.store
  | authMint (extCall : ExtCall) (ctx : Context) (count : Nat) (h : Host)
      (r : CallResponse) (h' : Host) :
      Reachable h.store → auth_mint_orbital extCall ctx count h = .ok (r, h') →
      Reachable h'.store

/-- Iterate `mint_orbital` a given number of times, keeping only the
final host state (the scenario of the spec's testable property). -/
def mintN (extCall : ExtCall) (ctx : Context) : Nat → Host → Except String Host
  | 0, h => .ok h
  | n + 1, h =>
    match mint_orbital extCall ctx h with
    | .error e => .error e
    | .ok (_, h') => mintN extCall ctx n h'

/-- Decidable form of the spec's authentication condition: exactly one
incoming transfer, of the contract's own token, with amount at least 1. -/
def authOk (ctx : Context) : Bool :=
  match ctx.incoming_alkanes with
  | [t] => decide (t.id = ctx.myself ∧ 1 ≤ t.value)
  | _ => false

/-- Discriminates validation results that failed with one of the three
authentication error messages of `only_owner`. -/
def isAuthMsg : Except String Unit → Bool
  | .error e =>
    decide (e = "did not authenticate with only the collection token" ∨
      e = "supplied alkane is not collection token" ∨
      e = "less than 1 unit of collection token supplied to authenticate")
  | .ok _ => false

/-- Discriminates handler results that failed with one of the three
authentication error messages of `only_owner`. -/
def isAuthError : Except String (CallResponse × Host) → Bool
  | .error e =>
    decide (e = "did not authenticate with only the collection token" ∨
      e = "supplied alkane is not collection token" ∨
      e = "less than 1 unit of collection token supplied to authenticate")
  | .ok _ => false

/-- Shorthand for the store produced by a successful mint from store
`s` at pre-call sequence `sequence`: the 32-byte record written at the
new 1-based slot, then the incremented count. -/
def afterMintStore (s : Store) (sequence : Nat) : Store :=
  set_instances_count
    (s.write (instanceKey (instances_count s + 1))
      (encodeId { block := 2, tx := sequence }))
    (instances_count s + 1)

instance instDecEqExceptGD {ε α : Type} [DecidableEq ε] [DecidableEq α] :
    DecidableEq (Except ε α) := fun a b =>
  match a, b with
  | .error e, .error e' =>
    if h : e = e' then .isTrue (by rw [h])
    else .isFalse (fun hc => h (by cases hc; rfl))
  | .error _, .ok _ => .isFalse (fun hc => by cases hc)
  | .ok _, .error _ => .isFalse (fun hc => by cases hc)
  | .ok a, .ok b =>
    if h : a = b then .isTrue (by rw [h])
    else .isFalse (fun hc => h (by cases hc; rfl))

/-! Concrete objects used by counterexamples and witnesses. -/

/-- Demonstration behaviour of the external call adapter: the template
sub-call succeeds, returns one transfer of the newly created instance,
and advances the host's sequence counter by one (the spec's §5 ordering
guarantee: the counter advances exactly once per object-creating
sub-call). -/
def demoCall : ExtCall := fun _ _ fuel seq =>
  .ok ({ alkanes := [{ id := { block := 2, tx := seq }, value := 1 }], data := [] },
    seq + 1, fuel)

/-- External call whose response carries no output transfers. -/
def emptyRespCall : ExtCall := fun _ _ fuel seq =>
  .ok ({ alkanes := [], data := [] }, seq + 1, fuel)

/-- A host state at deployment with sequence counter 7. -/
def demoHost : Host :=
  { sequence := 7, fuel := 100, store := emptyStore, initDone := true }

/-- A host state at deployment whose one-time init marker is unset. -/
def freshHost : Host :=
  { sequence := 7, fuel := 100, store := emptyStore, initDone := false }

/-- A caller presenting no incoming transfers. -/
def demoCtx : Context := { incoming_alkanes := [], myself := { block := 4, tx := 1 } }

/-- A caller presenting exactly one 3-unit transfer of the collection's
own token. -/
def ownerCtx : Context :=
  { incoming_alkanes := [{ id := { block := 4, tx := 1 }, value := 3 }],
    myself := { block := 4, tx := 1 } }

/-- The store after the first successful mint under `demoCall` from
`demoHost`: instance 1 is `{block 2, tx 7}` and the count is 1. -/
def demoMintStore : Store :=
  set_instances_count
    (emptyStore.write (instanceKey 1) (encodeId { block := 2, tx := 7 })) 1

/-- The host after the first successful mint under `demoCall` from
`demoHost`. -/
def demoMintHost : Host :=
  { sequence := 8, fuel := 100, store := demoMintStore, initDone := true }

/-- A store whose persisted count is the full supply of 5. -/
def fullStore : Store := set_instances_count emptyStore 5

/-- A host state whose collection is fully minted out. -/
def fullHost : Host :=
  { sequence := 7, fuel := 100, store := fullStore, initDone := true }

/-! Helper lemmas about the byte encodings and the store. -/

theorem natToLE_length : ∀ (w n : Nat), (natToLE w n).length = w
  | 0, _ => rfl
  | w + 1, n => by simp [natToLE, natToLE_length w]

theorem leToNat_natToLE : ∀ (w n : Nat), leToNat (natToLE w n) = n % 2 ^ (8 * w)
  | 0, n => by simp [natToLE, leToNat, Nat.mod_one]
  | w + 1, n => by
    have hpow : (2 : Nat) ^ (8 * (w + 1)) = 256 * 2 ^ (8 * w) := by
      rw [Nat.mul_succ, pow_add]; ring
    simp only [natToLE, leToNat]
    rw [leToNat_natToLE w (n / 256), Nat.mod_mod_of_dvd _ (dvd_refl 256), hpow,
      Nat.mod_mul]

theorem leToNat_natToLE16 (n : Nat) : leToNat (natToLE 16 n) = n % 2 ^ 128 := by
  have := leToNat_natToLE 16 n
  norm_num at this
  exact this

theorem leToNat_natToLE16_of_lt {n : Nat} (h : n < 2 ^ 128) :
    leToNat (natToLE 16 n) = n := by
  rw [leToNat_natToLE16, Nat.mod_eq_of_lt h]

theorem encodeId_length (id : AlkaneId) : (encodeId id).length = 32 := by
  simp [encodeId, natToLE_length]

theorem encodeId_take (id : AlkaneId) : (encodeId id).take 16 = natToLE 16 id.block := by
  have h := List.take_left (natToLE 16 id.block) (natToLE 16 id.tx)
  rwa [natToLE_length] at h

theorem encodeId_drop (id : AlkaneId) : (encodeId id).drop 16 = natToLE 16 id.tx := by
  have h := List.drop_left (natToLE 16 id.block) (natToLE 16 id.tx)
  rwa [natToLE_length] at h

theorem Store.write_self (s : Store) (k v : List Nat) : (s.write k v) k = v := by
  simp [Store.write]

theorem Store.write_other (s : Store) {k k' : List Nat} (v : List Nat) (h : k' ≠ k) :
    (s.write k v) k' = s k' := by
  simp [Store.write, h]

theorem instancesKey_length : instancesKey.length = 10 := by decide

theorem instanceKey_ne_instancesKey (i : Nat) : instanceKey i ≠ instancesKey := by
  intro h
  have := congrArg List.length h
  simp [instanceKey, natToLE_length, instancesKey_length] at this

theorem instanceKey_inj {i j : Nat} (hi : i < 2 ^ 128) (hj : j < 2 ^ 128)
    (h : instanceKey i = instanceKey j) : i = j := by
  have h2 := List.append_cancel_left h
  have h3 := congrArg leToNat h2
  rwa [leToNat_natToLE16_of_lt hi, leToNat_natToLE16_of_lt hj] at h3

theorem instances_count_lt (s : Store) : instances_count s < 2 ^ 128 :=
  Nat.mod_lt _ (by norm_num)

theorem instances_count_set (s : Store) (n : Nat) :
    instances_count (set_instances_count s n) = n % 2 ^ 128 := by
  unfold instances_count set_instances_count
  rw [Store.write_self, leToNat_natToLE16, Nat.mod_mod_of_dvd _ (dvd_refl _)]

theorem instances_count_set_of_lt (s : Store) {n : Nat} (h : n < 2 ^ 128) :
    instances_count (set_instances_count s n) = n := by
  rw [instances_count_set, Nat.mod_eq_of_lt h]

theorem set_instances_count_instanceKey (s : Store) (n i : Nat) :
    (set_instances_count s n) (instanceKey i) = s (instanceKey i) := by
  unfold set_instances_count
  exact Store.write_other s _ (instanceKey_ne_instancesKey i)

/-! Inversion lemmas for the registry and minting operations. -/

theorem add_instance_ok_inv {s : Store} {id : AlkaneId} {n : Nat} {s' : Store}
    (h : add_instance s id = .ok (n, s')) :
    instances_count s ≠ U128_MAX ∧ n = instances_count s + 1 ∧
    s' = set_instances_count (s.write (instanceKey n) (encodeId id)) n := by
  simp only [add_instance] at h
  split at h
  · cases h
  · rename_i hne
    cases h
    exact ⟨hne, rfl, rfl⟩

theorem add_instance_error_iff {s : Store} {id : AlkaneId} :
    add_instance s id = .error "instances count overflow" ↔
      instances_count s = U128_MAX := by
  constructor
  · intro h
    simp only [add_instance] at h
    split at h
    · assumption
    · cases h
  · intro h
    simp [add_instance, h]

theorem add_instance_ok_of_ne {s : Store} {id : AlkaneId}
    (hne : instances_count s ≠ U128_MAX) :
    add_instance s id =
      .ok (instances_count s + 1,
        set_instances_count
          (s.write (instanceKey (instances_count s + 1)) (encodeId id))
          (instances_count s + 1)) := by
  simp [add_instance, hne]

theorem count_succ_lt {c : Nat} (hc : c < 2 ^ 128) (hne : c ≠ U128_MAX) :
    c + 1 < 2 ^ 128 := by
  simp only [U128_MAX] at hne
  omega

theorem add_instance_count {s : Store} {id : AlkaneId} {n : Nat} {s' : Store}
    (h : add_instance s id = .ok (n, s')) :
    instances_count s' = instances_count s + 1 := by
  obtain ⟨hne, hn, hs'⟩ := add_instance_ok_inv h
  subst hn hs'
  exact instances_count_set_of_lt _ (count_succ_lt (instances_count_lt s) hne)

theorem create_mint_transfer_full {extCall : ExtCall} {h : Host}
    (h5 : max_mints ≤ instances_count h.store) :
    create_mint_transfer extCall h = .error "Giga Dogi collection has fully minted out" := by
  simp [create_mint_transfer, h5]

theorem create_mint_transfer_ok_inv {extCall : ExtCall} {h : Host}
    {t : AlkaneTransfer} {h' : Host}
    (hok : create_mint_transfer extCall h = .ok (t, h')) :
    instances_count h.store < max_mints ∧
    h'.store =
      set_instances_count
        (h.store.write (instanceKey (instances_count h.store + 1))
          (encodeId { block := 2, tx := h.sequence }))
        (instances_count h.store + 1) ∧
    h'.initDone = h.initDone ∧
    ∃ resp seq' fuel' ts,
      extCall (mintCellpack (instances_count h.store)) [] h.fuel h.sequence =
        .ok (resp, seq', fuel') ∧
      resp.alkanes = t :: ts ∧ h'.sequence = seq' ∧ h'.fuel = fuel' := by
  simp only [create_mint_transfer] at hok
  split at hok
  · cases hok
  · rename_i h5
    split at hok
    · cases hok
    · rename_i resp seq' fuel' hcall
      split at hok
      · cases hok
      · rename_i n s' hadd
        obtain ⟨hne, hn, hs'⟩ := add_instance_ok_inv hadd
        split at hok
        · cases hok
        · rename_i t0 ts0 halk
          cases hok
          refine ⟨by omega, ?_, rfl, resp, seq', fuel', ts0, hcall, halk, rfl, rfl⟩
          rw [hs', hn]

theorem create_mint_transfer_count {extCall : ExtCall} {h : Host}
    {t : AlkaneTransfer} {h' : Host}
    (hok : create_mint_transfer extCall h = .ok (t, h')) :
    instances_count h'.store = instances_count h.store + 1 ∧
    instances_count h.store < max_mints := by
  obtain ⟨h5, hs', -⟩ := create_mint_transfer_ok_inv hok
  refine ⟨?_, h5⟩
  rw [hs']
  refine instances_count_set_of_lt _ ?_
  have := instances_count_lt h.store
  simp only [max_mints] at h5
  omega

theorem mint_orbital_ok_inv {extCall : ExtCall} {ctx : Context} {h : Host}
    {r : CallResponse} {h' : Host}
    (hok : mint_orbital extCall ctx h = .ok (r, h')) :
    ∃ t, create_mint_transfer extCall h = .ok (t, h') ∧
      r = { alkanes := ctx.incoming_alkanes ++ [t], data := [] } := by
  simp only [mint_orbital] at hok
  split at hok
  · cases hok
  · rename_i t h2 hc
    cases hok
    exact ⟨t, hc, rfl⟩

theorem mint_orbital_error {extCall : ExtCall} {ctx : Context} {h : Host} {e : String}
    (hc : create_mint_transfer extCall h = .error e) :
    mint_orbital extCall ctx h = .error e := by
  simp [mint_orbital, hc]

theorem auth_mint_orbital_ok_inv {extCall : ExtCall} {ctx : Context} {count : Nat}
    {h : Host} {r : CallResponse} {h' : Host}
    (hok : auth_mint_orbital extCall ctx count h = .ok (r, h')) :
    only_owner ctx = .ok () ∧
    ∃ ts, mintLoop extCall count h = .ok (ts, h') ∧
      r = { alkanes := ctx.incoming_alkanes ++ ts, data := [] } := by
  simp only [auth_mint_orbital] at hok
  split at hok
  · cases hok
  · rename_i u hown
    split at hok
    · cases hok
    · rename_i ts h2 hl
      cases hok
      exact ⟨hown, ts, hl, rfl⟩

theorem emptyStore_inv : StoreInv emptyStore := by
  constructor
  · simp [instances_count, emptyStore, leToNat, max_mints]
  · intro j _ _
    rfl

theorem create_mint_transfer_inv {extCall : ExtCall} {h : Host}
    {t : AlkaneTransfer} {h' : Host} (hinv : StoreInv h.store)
    (hok : create_mint_transfer extCall h = .ok (t, h')) : StoreInv h'.store := by
  obtain ⟨h5, hs', -⟩ := create_mint_transfer_ok_inv hok
  obtain ⟨-, hsl⟩ := hinv
  have hclt : instances_count h.store < 2 ^ 128 := instances_count_lt _
  have hnew : instances_count h'.store = instances_count h.store + 1 :=
    (create_mint_transfer_count hok).1
  have hc1' : instances_count h.store + 1 < 2 ^ 128 := by
    simp only [max_mints] at h5
    omega
  constructor
  · rw [hnew]
    simp only [max_mints] at h5 ⊢
    omega
  · intro j hj hcond
    rw [hnew] at hcond
    rw [hs', set_instances_count_instanceKey]
    have hjne : instanceKey j ≠ instanceKey (instances_count h.store + 1) := by
      intro he
      have := instanceKey_inj hj hc1' he
      omega
    rw [Store.write_other _ _ hjne]
    refine hsl j hj ?_
    rcases hcond with h0 | hlt
    · exact Or.inl h0
    · exact Or.inr (by omega)

theorem mintLoop_inv {extCall : ExtCall} :
    ∀ {k : Nat} {h : Host} {ts : List AlkaneTransfer} {h' : Host},
      StoreInv h.store → mintLoop extCall k h = .ok (ts, h') → StoreInv h'.store := by
  intro k
  induction k with
  | zero =>
    intro h ts h' hinv hok
    simp only [mintLoop] at hok
    cases hok
    exact hinv
  | succ n ih =>
    intro h ts h' hinv hok
    simp only [mintLoop] at hok
    split at hok
    · cases hok
    · rename_i t h1 hc
      split at hok
      · cases hok
      · rename_i ts1 h2 hl
        cases hok
        exact ih (create_mint_transfer_inv hinv hc) hl

theorem reachable_inv {s : Store} (hr : Reachable s) : StoreInv s := by
  induction hr with
  | empty => exact emptyStore_inv
  | mint extCall ctx h r h' _ hok ih =>
    obtain ⟨t, hc, -⟩ := mint_orbital_ok_inv hok
    exact create_mint_transfer_inv ih hc
  | authMint extCall ctx count h r h' _ hok ih =>
    obtain ⟨-, ts, hl, -⟩ := auth_mint_orbital_ok_inv hok
    exact mintLoop_inv ih hl

theorem mintN_count {extCall : ExtCall} {ctx : Context} :
    ∀ {n : Nat} {h : Host} {h' : Host},
      mintN extCall ctx n h = .ok h' →
      instances_count h'.store = instances_count h.store + n := by
  intro n
  induction n with
  | zero =>
    intro h h' hok
    simp only [mintN] at hok
    cases hok
    rfl
  | succ m ih =>
    intro h h' hok
    simp only [mintN] at hok
    split at hok
    · cases hok
    · rename_i r h1 hm
      obtain ⟨t, hc, -⟩ := mint_orbital_ok_inv hm
      have := (create_mint_transfer_count hc).1
      have h2 := ih hok
      omega

theorem instances_count_empty : instances_count emptyStore = 0 := rfl

theorem lt5_ne_max {c : Nat} (h : c < 5) : c ≠ U128_MAX := by
  intro he
  rw [he] at h
  simp only [U128_MAX] at h
  omega

theorem lookup_instance_slot {s : Store} {index k : Nat} (hk : index + 1 = k)
    (hlt : k < 2 ^ 128) {id : AlkaneId} (hb : id.block < 2 ^ 128) (ht : id.tx < 2 ^ 128)
    (hslot : s (instanceKey k) = encodeId id) :
    lookup_instance s index = .ok id := by
  simp only [lookup_instance]
  rw [hk, Nat.mod_eq_of_lt hlt, hslot]
  rw [if_neg (by simp [encodeId_length])]
  rw [encodeId_take, encodeId_drop, leToNat_natToLE16_of_lt hb, leToNat_natToLE16_of_lt ht]

theorem mintLoop_error_succ {extCall : ExtCall} {h : Host} {e : String} (m : Nat)
    (hc : create_mint_transfer extCall h = .error e) :
    mintLoop extCall (m + 1) h = .error e := by
  simp [mintLoop, hc]

theorem auth_mint_orbital_loop_error {extCall : ExtCall} {ctx : Context} {k : Nat}
    {h : Host} {e : String} (hown : only_owner ctx = .ok ())
    (hl : mintLoop extCall k h = .error e) :
    auth_mint_orbital extCall ctx k h = .error e := by
  simp [auth_mint_orbital, hown, hl]

/-! Claim theorems. -/

/-- C1 counterexample: the claim as stated is false on the code.  At the
concrete input `demoCall`/`demoHost` (sequence counter 7 before the
sub-call, 8 after it — the call advances the counter once, exactly as the
spec's concurrency section describes), the mint succeeds and the
persisted identity is `{realm 2, sequence 7}`: the counter value read
BEFORE the creating sub-call (line `let sequence = self.sequence();`
precedes `self.call(...)` in the source), not the value 8 that reading
the Execution Context immediately after the returned call yields. -/
theorem C1_counterexample :
    create_mint_transfer demoCall demoHost =
      .ok ({ id := { block := 2, tx := 7 }, value := 1 }, demoMintHost) ∧
    demoMintHost.sequence = 8 ∧
    lookup_instance demoMintHost.store 0 = .ok { block := 2, tx := 7 } ∧
    ({ block := 2, tx := 7 } : AlkaneId) ≠ { block := 2, tx := 8 } :=
  ⟨rfl, rfl, by decide, by decide⟩

/-- C1 (amended): in `createMintTransfer`, for every successful mint, the
identity persisted via `addInstance` is `{realm = 2, sequence = the
Execution Context's sequence counter value read immediately BEFORE the
cross-contract call to the template contract}` — the source reads
`self.sequence()` and only then performs the sub-call, so the recorded
value is the pre-call counter (the identity the sub-call's newly created
instance receives), not the counter observed after the call returns. -/
theorem C1_mint_records_precall_sequence
    {extCall : ExtCall} {h : Host} {t : AlkaneTransfer} {h' : Host}
    (hseq : h.sequence < 2 ^ 128)
    (hok : create_mint_transfer extCall h = .ok (t, h')) :
    h'.store (instanceKey (instances_count h.store + 1)) =
      encodeId { block := 2, tx := h.sequence } ∧
    lookup_instance h'.store (instances_count h.store) =
      .ok { block := 2, tx := h.sequence } := by
  obtain ⟨h5, hs', -⟩ := create_mint_transfer_ok_inv hok
  have hc1 : instances_count h.store + 1 < 2 ^ 128 := by
    have := instances_count_lt h.store
    simp only [max_mints] at h5
    omega
  have hslot : h'.store (instanceKey (instances_count h.store + 1)) =
      encodeId { block := 2, tx := h.sequence } := by
    rw [hs', set_instances_count_instanceKey, Store.write_self]
  exact ⟨hslot, lookup_instance_slot rfl hc1 (by norm_num) hseq hslot⟩

/-- C1 witness: the amended theorem applied to the concrete first mint
under `demoCall` from `demoHost` (pre-call sequence 7). -/
theorem C1_mint_records_precall_sequence_witness :
    demoMintHost.store (instanceKey 1) = encodeId { block := 2, tx := 7 } ∧
    lookup_instance demoMintHost.store 0 = .ok { block := 2, tx := 7 } := by
  have h := @C1_mint_records_precall_sequence demoCall demoHost
    { id := { block := 2, tx := 7 }, value := 1 } demoMintHost
    (by decide) rfl
  simpa [demoHost, instances_count_empty] using h

/-- C3: for every reachable state the count is between 0 and 5
(the lower bound is inherent to `Nat`); `createMintTransfer` refuses to
mint at count 5 or above; and `addInstance` increments the persisted
count by exactly 1. -/
theorem C3_supply_invariant :
    (∀ s : Store, Reachable s → instances_count s ≤ 5) ∧
    (∀ (extCall : ExtCall) (h : Host), 5 ≤ instances_count h.store →
      create_mint_transfer extCall h =
        .error "Giga Dogi collection has fully minted out") ∧
    (∀ (s : Store) (id : AlkaneId) (n : Nat) (s' : Store),
      add_instance s id = .ok (n, s') →
      instances_count s' = instances_count s + 1) :=
  ⟨fun _ hr => (reachable_inv hr).1,
   fun _ _ h5 => create_mint_transfer_full h5,
   fun _ _ _ _ hadd => add_instance_count hadd⟩

/-- C3 witness: the invariant at the reachable empty store, the refusal
at a full store, and the increment on a concrete `addInstance`. -/
theorem C3_supply_invariant_witness :
    instances_count emptyStore ≤ 5 ∧
    create_mint_transfer demoCall fullHost =
      .error "Giga Dogi collection has fully minted out" ∧
    instances_count demoMintStore = instances_count emptyStore + 1 :=
  ⟨C3_supply_invariant.1 emptyStore Reachable.empty,
   C3_supply_invariant.2.1 demoCall fullHost (by decide),
   C3_supply_invariant.2.2 emptyStore { block := 2, tx := 7 } 1 demoMintStore rfl⟩

/-- C4: `addInstance(id)` uses checked arithmetic (it fails with the
counter-overflow error exactly when the count is `u128::MAX`), and on
success returns the incremented count `newCount`, stores the 32-byte
encoding of `id` (16 bytes little-endian realm, then 16 bytes
little-endian sequence) at the 1-based storage key `newCount`, after
which `lookupInstance (newCount - 1)` returns an identity bit-for-bit
equal to `id`. -/
theorem C4_roundtrip (s : Store) (id : AlkaneId)
    (hb : id.block < 2 ^ 128) (ht : id.tx < 2 ^ 128) :
    (add_instance s id = .error "instances count overflow" ↔
      instances_count s = U128_MAX) ∧
    ∀ n s', add_instance s id = .ok (n, s') →
      n = instances_count s + 1 ∧
      instances_count s' = n ∧
      s' (instanceKey n) = natToLE 16 id.block ++ natToLE 16 id.tx ∧
      lookup_instance s' (n - 1) = .ok id := by
  refine ⟨add_instance_error_iff, fun n s' hadd => ?_⟩
  obtain ⟨hne, hn, hs'⟩ := add_instance_ok_inv hadd
  have hcount := add_instance_count hadd
  have hlt : n < 2 ^ 128 := by
    rw [hn]
    exact count_succ_lt (instances_count_lt s) hne
  have hslot : s' (instanceKey n) = encodeId id := by
    rw [hs', set_instances_count_instanceKey, Store.write_self]
  refine ⟨hn, by rw [hcount, hn], by rw [hslot]; rfl, ?_⟩
  exact lookup_instance_slot (by omega) hlt hb ht hslot

/-- C4 witness: the round trip on the concrete first instance. -/
theorem C4_roundtrip_witness :
    instances_count demoMintStore = 1 ∧
    lookup_instance demoMintStore 0 = .ok { block := 2, tx := 7 } := by
  have h := (C4_roundtrip emptyStore { block := 2, tx := 7 }
    (by decide) (by decide)).2 1 demoMintStore rfl
  exact ⟨h.2.1, h.2.2.2⟩

/-- C2: starting from the empty state, after `N ≤ 5` successful
`mintOrbital` calls the count is `N`; and at count 5 any further
`createMintTransfer` — directly, via `mintOrbital`, or via an
authenticated `authMintOrbital` minting at least once — fails with the
supply-exhausted error and returns no transfer. -/
theorem C2_supply_schedule (extCall : ExtCall) (ctx : Context)
    (seq fuel : Nat) (b : Bool) :
    (∀ N, N ≤ 5 → ∀ h',
      mintN extCall ctx N
          { sequence := seq, fuel := fuel, store := emptyStore, initDone := b } =
        .ok h' →
      instances_count h'.store = N) ∧
    (∀ h : Host, instances_count h.store = 5 →
      create_mint_transfer extCall h =
        .error "Giga Dogi collection has fully minted out" ∧
      mint_orbital extCall ctx h =
        .error "Giga Dogi collection has fully minted out" ∧
      ∀ k, 1 ≤ k → only_owner ctx = .ok () →
        auth_mint_orbital extCall ctx k h =
          .error "Giga Dogi collection has fully minted out") := by
  constructor
  · intro N _ h' hok
    have := mintN_count hok
    simpa [instances_count_empty] using this
  · intro h h5
    have hc : create_mint_transfer extCall h =
        .error "Giga Dogi collection has fully minted out" :=
      create_mint_transfer_full (by rw [h5]; decide)
    refine ⟨hc, mint_orbital_error hc, ?_⟩
    intro k hk hown
    obtain ⟨m, rfl⟩ : ∃ m, k = m + 1 := ⟨k - 1, by omega⟩
    exact auth_mint_orbital_loop_error hown (mintLoop_error_succ m hc)

/-- C2 witness: one concrete mint from empty state yields count 1, and
at the full store both mint paths fail with the supply error. -/
theorem C2_supply_schedule_witness :
    instances_count demoMintHost.store = 1 ∧
    mint_orbital demoCall demoCtx fullHost =
      .error "Giga Dogi collection has fully minted out" ∧
    auth_mint_orbital demoCall ownerCtx 3 fullHost =
      .error "Giga Dogi collection has fully minted out" :=
  ⟨(C2_supply_schedule demoCall demoCtx 7 100 true).1 1 (by omega) demoMintHost rfl,
   ((C2_supply_schedule demoCall demoCtx 7 100 true).2 fullHost (by decide)).2.1,
   ((C2_supply_schedule demoCall ownerCtx 7 100 true).2 fullHost (by decide)).2.2 3
     (by omega) (by decide)⟩

theorem only_owner_ok_iff (ctx : Context) :
    only_owner ctx = .ok () ↔ authOk ctx = true := by
  rcases hl : ctx.incoming_alkanes with - | ⟨t, rest⟩
  · simp [only_owner, authOk, hl]
  · rcases rest with - | ⟨t', rest'⟩
    · by_cases hid : t.id = ctx.myself
      · by_cases hv : t.value < 1
        · simp [only_owner, authOk, hl, hid, hv]
          try omega
        · simp [only_owner, authOk, hl, hid, hv]
          try omega
      · simp [only_owner, authOk, hl, hid]
    · simp [only_owner, authOk, hl]

theorem only_owner_err (ctx : Context) (hfail : authOk ctx = false) :
    isAuthMsg (only_owner ctx) = true := by
  rcases hl : ctx.incoming_alkanes with - | ⟨t, rest⟩
  · simp [only_owner, isAuthMsg, hl]
  · rcases rest with - | ⟨t', rest'⟩
    · simp only [authOk, hl] at hfail
      by_cases hid : t.id = ctx.myself
      · have hv : t.value < 1 := by
          rcases Nat.lt_or_ge t.value 1 with hlt | hge
          · exact hlt
          · exact absurd hfail (by simp [hid, hge])
        simp [only_owner, isAuthMsg, hl, hid, hv]
      · simp [only_owner, isAuthMsg, hl, hid]
    · simp [only_owner, isAuthMsg, hl]

/-- C5: `authMintOrbital` fails with one of the authentication errors —
and so mints nothing and returns no response — unless the incoming
transfers are exactly one transfer of the contract's own token with
amount at least 1; the gate `only_owner` is characterised exactly by
that condition.  (The gate itself is the pure function `only_owner` of
the call context alone: it touches neither the store nor the host
state.) -/
theorem C5_auth_gate (extCall : ExtCall) (ctx : Context) (count : Nat) (h : Host) :
    (only_owner ctx = .ok () ↔ authOk ctx = true) ∧
    (authOk ctx = false →
      isAuthError (auth_mint_orbital extCall ctx count h) = true) := by
  refine ⟨only_owner_ok_iff ctx, fun hfail => ?_⟩
  have hmsg := only_owner_err ctx hfail
  cases ho : only_owner ctx with
  | error e =>
    rw [ho] at hmsg
    have hres : auth_mint_orbital extCall ctx count h = .error e := by
      simp [auth_mint_orbital, ho]
    rw [hres]
    simpa [isAuthError, isAuthMsg] using hmsg
  | ok u =>
    rw [ho] at hmsg
    simp [isAuthMsg] at hmsg

/-- C5 witness: the owner context passes the gate; the empty context
fails `authMintOrbital` with an authentication error. -/
theorem C5_auth_gate_witness :
    (only_owner ownerCtx = .ok () ↔ authOk ownerCtx = true) ∧
    isAuthError (auth_mint_orbital demoCall demoCtx 1 demoHost) = true :=
  ⟨(C5_auth_gate demoCall ownerCtx 1 demoHost).1,
   (C5_auth_gate demoCall demoCtx 1 demoHost).2 (by decide)⟩

/-- C6: in `createMintTransfer`, once the supply check passes and the
cross-contract call has returned a response (and `addInstance` has
recorded the new identity), the operation fails with the mint-failed
error exactly when the response carries zero output transfers, and
otherwise returns the response's first output transfer. -/
theorem C6_factory_response (extCall : ExtCall) (h : Host)
    (resp : CallResponse) (seq' fuel' : Nat)
    (h5 : instances_count h.store < 5)
    (hcall : extCall (mintCellpack (instances_count h.store)) [] h.fuel h.sequence =
      .ok (resp, seq', fuel')) :
    (resp.alkanes = [] →
      create_mint_transfer extCall h =
        .error "orbital token not returned with factory") ∧
    (∀ t ts, resp.alkanes = t :: ts →
      create_mint_transfer extCall h =
        .ok (t, { h with
                  sequence := seq'
                  fuel := fuel'
                  store := afterMintStore h.store h.sequence })) := by
  have hne := lt5_ne_max h5
  have h5' : ¬ (max_mints ≤ instances_count h.store) := by
    simp only [max_mints]
    omega
  constructor
  · intro halk
    simp only [create_mint_transfer, if_neg h5', hcall, add_instance_ok_of_ne hne, halk]
  · intro t ts halk
    simp only [create_mint_transfer, if_neg h5', hcall, add_instance_ok_of_ne hne, halk]
    rfl

/-- C6 witness: the concrete empty-response call fails with the
mint-failed error; the concrete one-transfer call returns that
transfer. -/
theorem C6_factory_response_witness :
    create_mint_transfer emptyRespCall demoHost =
      .error "orbital token not returned with factory" ∧
    create_mint_transfer demoCall demoHost =
      .ok ({ id := { block := 2, tx := 7 }, value := 1 }, demoMintHost) := by
  constructor
  · exact (C6_factory_response emptyRespCall demoHost { alkanes := [], data := [] }
      8 100 (by decide) rfl).1 rfl
  · exact (C6_factory_response demoCall demoHost
      { alkanes := [{ id := { block := 2, tx := 7 }, value := 1 }], data := [] }
      8 100 (by decide) rfl).2 { id := { block := 2, tx := 7 }, value := 1 } [] rfl

/-- C7: `getAttributes(index)` and `getData(index)` (through their
tables `generate_dogi_attributes` and `get_cloudinary_url`) fail with
the index-out-of-bounds error exactly when `index ≥ 5`, succeed for
`index < 5`, and the handlers deterministically wrap the static table
content for the given index as the response payload while forwarding the
incoming transfers. -/
theorem C7_static_query_bounds (index : Nat) :
    ((generate_dogi_attributes index).isOk = true ↔ index < 5) ∧
    ((get_cloudinary_url index).isOk = true ↔ index < 5) ∧
    (5 ≤ index →
      generate_dogi_attributes index =
        .error "Index out of bounds for Giga Dogi collection" ∧
      get_cloudinary_url index =
        .error "Index out of bounds for Giga Dogi collection") ∧
    (∀ ctx : Context,
      get_attributes ctx index = (generate_dogi_attributes index).map
        (fun a =>
          { CallResponse.forward ctx.incoming_alkanes with data := strBytes a }) ∧
      get_data ctx index = (get_cloudinary_url index).map
        (fun u =>
          { CallResponse.forward ctx.incoming_alkanes with data := strBytes u })) := by
  have hga : ∀ ctx : Context, get_attributes ctx index =
      (generate_dogi_attributes index).map
        (fun a =>
          { CallResponse.forward ctx.incoming_alkanes with data := strBytes a }) := by
    intro ctx
    cases hg : generate_dogi_attributes index <;> simp [get_attributes, hg, Except.map]
  have hgd : ∀ ctx : Context, get_data ctx index =
      (get_cloudinary_url index).map
        (fun u =>
          { CallResponse.forward ctx.incoming_alkanes with data := strBytes u }) := by
    intro ctx
    cases hg : get_cloudinary_url index <;> simp [get_data, hg, Except.map]
  by_cases h5 : 5 ≤ index
  · refine ⟨?_, ?_, fun _ => ⟨?_, ?_⟩, fun ctx => ⟨hga ctx, hgd ctx⟩⟩
    · simp [generate_dogi_attributes, h5, Except.isOk, Except.toBool]
    · simp [get_cloudinary_url, h5, Except.isOk, Except.toBool]
    · simp [generate_dogi_attributes, h5]
    · simp [get_cloudinary_url, h5]
  · have h5' : index < 5 := by omega
    interval_cases index <;>
      exact ⟨by decide, by decide, by decide, fun ctx => ⟨hga ctx, hgd ctx⟩⟩

/-- C7 witness: a concrete in-bounds index succeeds and a concrete
out-of-bounds index fails with the bounds error. -/
theorem C7_static_query_bounds_witness :
    (generate_dogi_attributes 3).isOk = true ∧
    (get_cloudinary_url 3).isOk = true ∧
    generate_dogi_attributes 7 =
      .error "Index out of bounds for Giga Dogi collection" ∧
    get_cloudinary_url 7 =
      .error "Index out of bounds for Giga Dogi collection" :=
  ⟨(C7_static_query_bounds 3).1.mpr (by omega),
   (C7_static_query_bounds 3).2.1.mpr (by omega),
   ((C7_static_query_bounds 7).2.2.1 (by omega)).1,
   ((C7_static_query_bounds 7).2.2.1 (by omega)).2⟩

/-- C8: `getTotalSupply` always answers with the constant 1 as 16-byte
little-endian, whatever the store holds, while `getOrbitalCount` answers
with the current `instances_count` as 16-byte little-endian; both
forward the incoming transfers. -/
theorem C8_supply_queries (ctx : Context) (s : Store) :
    get_total_supply ctx =
      .ok { alkanes := ctx.incoming_alkanes, data := natToLE 16 1 } ∧
    get_orbital_count ctx s =
      .ok { alkanes := ctx.incoming_alkanes, data := natToLE 16 (instances_count s) } :=
  ⟨rfl, rfl⟩

/-- C9: `lookupInstance` has no bounds check against the count: for a
reachable store, any in-range index at or above `instances_count` reads
an unwritten slot, whose empty value fails the 32-byte length check, so
the error is the corrupt-state message "Invalid instance data length" —
never the index-out-of-bounds message — and `get_instance_alkane_id` and
`get_instance_identifier` propagate that same error. -/
theorem C9_lookup_unwritten (s : Store) (index : Nat)
    (hr : Reachable s) (hidx : index < 2 ^ 128)
    (hge : instances_count s ≤ index) :
    lookup_instance s index = .error "Invalid instance data length" ∧
    "Invalid instance data length" ≠ "Index out of bounds for Giga Dogi collection" ∧
    ∀ ctx : Context,
      get_instance_alkane_id ctx s index = .error "Invalid instance data length" ∧
      get_instance_identifier ctx s index = .error "Invalid instance data length" := by
  obtain ⟨hcnt, hslots⟩ := reachable_inv hr
  have hkey : s (instanceKey ((index + 1) % 2 ^ 128)) = [] := by
    rcases Nat.lt_or_ge (index + 1) (2 ^ 128) with hlt | hge2
    · rw [Nat.mod_eq_of_lt hlt]
      exact hslots (index + 1) hlt (Or.inr (by omega))
    · have heq : index + 1 = 2 ^ 128 := by omega
      rw [heq, Nat.mod_self]
      exact hslots 0 (by norm_num) (Or.inl rfl)
  have hlook : lookup_instance s index = .error "Invalid instance data length" := by
    simp only [lookup_instance]
    rw [hkey]
    simp
  refine ⟨hlook, by decide, fun ctx => ⟨?_, ?_⟩⟩
  · simp [get_instance_alkane_id, hlook]
  · simp [get_instance_identifier, hlook]

/-- C9 witness: at the reachable empty store (nothing minted), index 3
fails with the length error in the lookup and in both getters. -/
theorem C9_lookup_unwritten_witness :
    lookup_instance emptyStore 3 = .error "Invalid instance data length" ∧
    get_instance_alkane_id demoCtx emptyStore 3 =
      .error "Invalid instance data length" ∧
    get_instance_identifier demoCtx emptyStore 3 =
      .error "Invalid instance data length" := by
  have h := C9_lookup_unwritten emptyStore 3 Reachable.empty (by decide) (by decide)
  exact ⟨h.1, (h.2.2 demoCtx).1, (h.2.2 demoCtx).2⟩

/-- C10: every handler builds its successful response by forwarding the
caller's incoming transfers unchanged: the init handler appends exactly
the 10-unit self-transfer, the mint handlers append exactly the newly
minted transfers after the forwarded ones, and every query appends
nothing, setting only the data payload. -/
theorem C10_response_frame (extCall : ExtCall) (ctx : Context) (h : Host)
    (s : Store) (count index : Nat) :
    (∀ r h', initOp ctx h = .ok (r, h') →
      r.alkanes = ctx.incoming_alkanes ++ [{ id := ctx.myself, value := 10 }] ∧
      r.data = []) ∧
    (∀ r h', mint_orbital extCall ctx h = .ok (r, h') →
      ∃ t h'', create_mint_transfer extCall h = .ok (t, h'') ∧
        r.alkanes = ctx.incoming_alkanes ++ [t] ∧ r.data = []) ∧
    (∀ r h', auth_mint_orbital extCall ctx count h = .ok (r, h') →
      ∃ ts, mintLoop extCall count h = .ok (ts, h') ∧
        r.alkanes = ctx.incoming_alkanes ++ ts ∧ r.data = []) ∧
    (∀ r, get_name ctx = .ok r → r.alkanes = ctx.incoming_alkanes) ∧
    (∀ r, get_symbol ctx = .ok r → r.alkanes = ctx.incoming_alkanes) ∧
    (∀ r, get_total_supply ctx = .ok r → r.alkanes = ctx.incoming_alkanes) ∧
    (∀ r, get_orbital_count ctx s = .ok r → r.alkanes = ctx.incoming_alkanes) ∧
    (∀ r, get_attributes ctx index = .ok r → r.alkanes = ctx.incoming_alkanes) ∧
    (∀ r, get_data ctx index = .ok r → r.alkanes = ctx.incoming_alkanes) ∧
    (∀ r, get_instance_alkane_id ctx s index = .ok r →
      r.alkanes = ctx.incoming_alkanes) ∧
    (∀ r, get_instance_identifier ctx s index = .ok r →
      r.alkanes = ctx.incoming_alkanes) := by
  refine ⟨?_, ?_, ?_, ?_, ?_, ?_, ?_, ?_, ?_, ?_, ?_⟩
  · intro r h' hok
    simp only [initOp] at hok
    split at hok
    · cases hok
    · cases hok
      exact ⟨rfl, rfl⟩
  · intro r h' hok
    obtain ⟨t, hc, hr⟩ := mint_orbital_ok_inv hok
    subst hr
    exact ⟨t, h', hc, rfl, rfl⟩
  · intro r h' hok
    obtain ⟨hown, ts, hl, hr⟩ := auth_mint_orbital_ok_inv hok
    subst hr
    exact ⟨ts, hl, rfl, rfl⟩
  · intro r hok
    cases hok
    rfl
  · intro r hok
    cases hok
    rfl
  · intro r hok
    cases hok
    rfl
  · intro r hok
    cases hok
    rfl
  · intro r hok
    simp only [get_attributes] at hok
    split at hok
    · cases hok
    · cases hok
      rfl
  · intro r hok
    simp only [get_data] at hok
    split at hok
    · cases hok
    · cases hok
      rfl
  · intro r hok
    simp only [get_instance_alkane_id] at hok
    split at hok
    · cases hok
    · cases hok
      rfl
  · intro r hok
    simp only [get_instance_identifier] at hok
    split at hok
    · cases hok
    · cases hok
      rfl

/-- C10 witness: the concrete init response from a fresh host carries
exactly the forwarded (empty) transfers plus the 10-unit self-transfer,
and the concrete name query forwards the (empty) transfers unchanged. -/
theorem C10_response_frame_witness :
    ({ alkanes := [{ id := { block := 4, tx := 1 }, value := 10 }], data := [] } :
        CallResponse).alkanes =
      demoCtx.incoming_alkanes ++ [{ id := demoCtx.myself, value := 10 }] ∧
    ({ alkanes := [], data := strBytes collectionName } : CallResponse).alkanes =
      demoCtx.incoming_alkanes :=
  ⟨((C10_response_frame demoCall demoCtx freshHost emptyStore 0 0).1
      { alkanes := [{ id := { block := 4, tx := 1 }, value := 10 }], data := [] }
      { sequence := 7, fuel := 100, store := emptyStore, initDone := true } rfl).1,
   (C10_response_frame demoCall demoCtx freshHost emptyStore 0 0).2.2.2.1
      { alkanes := [], data := strBytes collectionName } rfl⟩

end GigaDogi
